import Mathlib

set_option autoImplicit false
set_option maxHeartbeats 1000000
set_option linter.unusedVariables false

/-!
Shallow embedding of `invoice_generator.py` (edwinabot/python-invoice-generator).

The Python object state `self.__dict__` is modelled as an insertion-ordered
association list `ObjDict` of string keys to Python values (`PyVal`), exactly
as CPython dicts behave: assignment to an existing key updates it in place
keeping its position, assignment to a fresh key appends it at the end,
`pop` removes the entry, `get` returns `None` when the key is absent,
subscripting a missing key raises `KeyError`.

Methods that mutate `self` in place are rendered as functions from the old
`ObjDict` to the new one; a method that raises before mutating returns an
`Except.error` carrying the Python exception.  `_to_json` both mutates
`self.__dict__` in place and returns `json.dumps` of that very dict, so its
embedding returns the final dict: it is at once the serialized JSON object
(keys of the dict are exactly the fields of the JSON object) and the state
of the invoice after the call.
-/

deriving instance DecidableEq for Except

/-- Calendar instant standing for Python `datetime`/`date` values.  The
program's only `strftime` format reads year, month and day; `seconds`
distinguishes instants obtained from the wall clock at different times. -/
structure PyDate where
  year : Nat
  month : Nat
  day : Nat
  seconds : Nat
  deriving DecidableEq, Repr

/-- Item object of the source: name, quantity, unit cost, optional
description.  Numeric values are modelled exactly as rationals. -/
structure Item where
  name : Option String
  quantity : Rat
  unit_cost : Rat
  description : Option String
  deriving DecidableEq, Repr

/-- CustomField object of the source: a name/value pair. -/
structure CustomField where
  name : Option String
  value : Option String
  deriving DecidableEq, Repr

/-- An entry of the `items` list: either a live `Item` instance or, after
`_to_json` rewrote the list, the item's `__dict__` (same four fields). -/
inductive ItemSlot where
  | obj (it : Item)
  | dict (it : Item)
  deriving DecidableEq, Repr

/-- An entry of the `custom_fields` list: a `CustomField` instance or its
`__dict__` after `_to_json` rewrote the list. -/
inductive CFSlot where
  | obj (cf : CustomField)
  | dict (cf : CustomField)
  deriving DecidableEq, Repr

/-- The `self.fields` display-toggle dict `\x7b"tax": ..., "discounts": ...,
"shipping": ...\x7d` written wholesale by `toggle_subtotal`. -/
structure FieldsRec where
  tax : String
  discounts : Bool
  shipping : Bool
  deriving DecidableEq, Repr

/-- Python values stored in the invoice's `__dict__`. -/
inductive PyVal where
  | pynone
  | pystr (s : String)
  | pynum (q : Rat)
  | pydate (d : PyDate)
  | pyitems (xs : List ItemSlot)
  | pycfs (xs : List CFSlot)
  | pyfields (f : FieldsRec)
  | pytemplate (t : List (String × String))
  deriving DecidableEq, Repr

/-- Python exceptions the embedded code can raise. -/
inductive PyErr where
  | keyError (key : String)
  | attributeError (attr : String)
  | valueError (msg : String)
  | typeError (msg : String)
  deriving DecidableEq, Repr

/-- The object dictionary `self.__dict__`: insertion-ordered, unique keys. -/
abbrev ObjDict := List (String × PyVal)

/-- Dict lookup (`d.get(key)` / `d[key]`): first entry with the key. -/
def dictGet : ObjDict → String → Option PyVal
  | [], _ => none
  | (k, v) :: rest, key => if k = key then some v else dictGet rest key

/-- Dict assignment `d[key] = val`: update in place keeping the position if
the key exists, else append at the end (CPython insertion order). -/
def dictSet : ObjDict → String → PyVal → ObjDict
  | [], key, val => [(key, val)]
  | (k, v) :: rest, key, val =>
    if k = key then (k, val) :: rest else (k, v) :: dictSet rest key val

/-- Dict removal `d.pop(key)`: `none` models the `KeyError` of a missing
key, otherwise the dict without that entry. -/
def dictPop : ObjDict → String → Option ObjDict
  | [], _ => none
  | (k, v) :: rest, key =>
    if k = key then some rest else (dictPop rest key).map ((k, v) :: ·)

/-- String-to-string dict lookup, for `self.template`. -/
def strDictGet : List (String × String) → String → Option String
  | [], _ => none
  | (k, v) :: rest, key => if k = key then some v else strDictGet rest key

/-- String-to-string dict assignment, for `self.template[key] = value`. -/
def strDictSet : List (String × String) → String → String → List (String × String)
  | [], key, val => [(key, val)]
  | (k, v) :: rest, key, val =>
    if k = key then (k, val) :: rest else (k, v) :: strDictSet rest key val

namespace InvoiceGenerator

def URL : String := "https://invoice-generator.com"

def DATE_FORMAT : String := "%d %b %Y"

def LOCALE : String := "en_US.utf8"

def TIMEZONE : String := "UTC"

/-- Class attribute `TEMPLATE_PARAMETERS`: the fixed allow-list of template
parameter names, verbatim and in source order. -/
def TEMPLATE_PARAMETERS : List String :=
  ["header", "to_title", "ship_to_title", "invoice_number_title", "date_title",
   "payment_terms_title", "due_date_title", "purchase_order_title",
   "quantity_header", "item_header", "unit_cost_header", "amount_header",
   "subtotal_title", "discounts_title", "tax_title", "shipping_title",
   "total_title", "amount_paid_title", "balance_title", "terms_title",
   "notes_title"]

end InvoiceGenerator

/-- Month-abbreviation column of the C locale database, indexed by the
locale name and the month number (1-12). -/
abbrev LocaleDB := String → Nat → String

/-- Month abbreviations of the `en_US` locale (what `%b` yields once
`locale.setlocale(locale.LC_ALL, "en_US.utf8")` has run). -/
def enMonthAbbrev : Nat → String
  | 1 => "Jan"
  | 2 => "Feb"
  | 3 => "Mar"
  | 4 => "Apr"
  | 5 => "May"
  | 6 => "Jun"
  | 7 => "Jul"
  | 8 => "Aug"
  | 9 => "Sep"
  | 10 => "Oct"
  | 11 => "Nov"
  | 12 => "Dec"
  | _ => ""

/-- Month abbreviation under the process locale `loc`: the fixed `en_US`
table when `loc` is the program's pinned locale, otherwise whatever the
ambient locale database `db` says. -/
def monthAbbrevIn (db : LocaleDB) (loc : String) (m : Nat) : String :=
  if loc = InvoiceGenerator.LOCALE then enMonthAbbrev m else db loc m

/-- Zero-padded two-digit rendering (`%d` of `strftime`). -/
def pad2 (n : Nat) : String :=
  if n < 10 then "0" ++ Nat.repr n else Nat.repr n

/-- Zero-padded four-digit rendering, for `str(date)` in the batch script. -/
def pad4 (n : Nat) : String :=
  if n < 10 then "000" ++ Nat.repr n
  else if n < 100 then "00" ++ Nat.repr n
  else if n < 1000 then "0" ++ Nat.repr n
  else Nat.repr n

/-- Python `dt.strftime("%d %b %Y")` (the only format the program uses,
`InvoiceGenerator.DATE_FORMAT`) under process locale `loc` with ambient
locale database `db`. -/
def strftime_d_b_Y (db : LocaleDB) (loc : String) (dt : PyDate) : String :=
  pad2 dt.day ++ " " ++ monthAbbrevIn db loc dt.month ++ " " ++ Nat.repr dt.year

/-- Python `str(d)` on a `datetime.date`: ISO `YYYY-MM-DD`. -/
def isoDate (dt : PyDate) : String :=
  pad4 dt.year ++ "-" ++ pad2 dt.month ++ "-" ++ pad2 dt.day

/-- Embed an optional string as a Python value (`None` or `str`). -/
def ostr : Option String → PyVal
  | none => .pynone
  | some s => .pystr s

/-- Embed an optional date as a Python value (`None` or `datetime`). -/
def odate : Option PyDate → PyVal
  | none => .pynone
  | some d => .pydate d

/-- Arguments of `InvoiceGenerator.__init__` other than the wall clock.
`date = none` means the caller omitted the `date` argument and the class
default applies. -/
structure InitParams where
  sender : String
  «to» : String
  logo : Option String
  ship_to : Option String
  number : Option String
  payments_terms : Option String
  due_date : Option PyDate
  notes : Option String
  terms : Option String
  currency : String
  date : Option PyDate
  discounts : Rat
  tax : Rat
  shipping : Rat
  amount_paid : Rat
  deriving DecidableEq, Repr

/-- Typed view of a reachable invoice state, with one field per attribute
assigned in `__init__` (`reprDict` renders it back as the object dict). -/
structure Invoice where
  logo : Option String
  sender : String
  «to» : String
  ship_to : Option String
  number : Option String
  currency : String
  custom_fields : List CustomField
  date : PyDate
  payment_terms : Option String
  due_date : Option PyDate
  items : List Item
  fields : FieldsRec
  discounts : Rat
  tax : Rat
  shipping : Rat
  amount_paid : Rat
  notes : Option String
  terms : Option String
  template : List (String × String)
  deriving DecidableEq, Repr

/-- The object dict `self.__dict__` of a typed invoice state, entries in
the exact order `__init__` assigns the attributes. -/
def reprDict (i : Invoice) : ObjDict :=
  [("logo", ostr i.logo),
   ("sender", .pystr i.sender),
   ("to", .pystr i.«to»),
   ("ship_to", ostr i.ship_to),
   ("number", ostr i.number),
   ("currency", .pystr i.currency),
   ("custom_fields", .pycfs (i.custom_fields.map CFSlot.obj)),
   ("date", .pydate i.date),
   ("payment_terms", ostr i.payment_terms),
   ("due_date", odate i.due_date),
   ("items", .pyitems (i.items.map ItemSlot.obj)),
   ("fields", .pyfields i.fields),
   ("discounts", .pynum i.discounts),
   ("tax", .pynum i.tax),
   ("shipping", .pynum i.shipping),
   ("amount_paid", .pynum i.amount_paid),
   ("notes", ostr i.notes),
   ("terms", ostr i.terms),
   ("template", .pytemplate i.template)]

/-- Typed state built by `__init__`.  Python evaluates the default
expression `datetime.now(tz=pytz.timezone(TIMEZONE))` ONCE, when the class
body is executed at module load: `moduleLoadDate` is that value.
`callTime` is the wall clock at the moment of this construction; the code
never reads it (a per-call default would use it instead). -/
def initInv (moduleLoadDate callTime : PyDate) (p : InitParams) : Invoice :=
  { logo := p.logo
    sender := p.sender
    «to» := p.«to»
    ship_to := p.ship_to
    number := p.number
    currency := p.currency
    custom_fields := []
    date := p.date.getD moduleLoadDate
    payment_terms := p.payments_terms
    due_date := p.due_date
    items := []
    fields := { tax := "%", discounts := false, shipping := false }
    discounts := p.discounts
    tax := p.tax
    shipping := p.shipping
    amount_paid := p.amount_paid
    notes := p.notes
    terms := p.terms
    template := [] }

/-- Object dict produced by `InvoiceGenerator.__init__`. -/
def initDict (moduleLoadDate callTime : PyDate) (p : InitParams) : ObjDict :=
  reprDict (initInv moduleLoadDate callTime p)

/-- Method `add_item`: append `Item(name, quantity, unit_cost, description)`
to `self.items`.  No range validation.  Reading a missing or non-list
`items` attribute would raise, as in Python. -/
def add_item (d : ObjDict) (name : Option String) (quantity unit_cost : Rat)
    (description : Option String) : Except PyErr ObjDict :=
  match dictGet d "items" with
  | some (.pyitems xs) =>
    .ok (dictSet d "items"
      (.pyitems (xs ++ [.obj ⟨name, quantity, unit_cost, description⟩])))
  | some _ => .error (.attributeError "append")
  | none => .error (.attributeError "items")

/-- Method `add_custom_field`: append `CustomField(name, value)` to
`self.custom_fields`. -/
def add_custom_field (d : ObjDict) (name value : Option String) :
    Except PyErr ObjDict :=
  match dictGet d "custom_fields" with
  | some (.pycfs xs) =>
    .ok (dictSet d "custom_fields" (.pycfs (xs ++ [.obj ⟨name, value⟩])))
  | some _ => .error (.attributeError "append")
  | none => .error (.attributeError "custom_fields")

/-- Method `set_template_text`: if the key is in `TEMPLATE_PARAMETERS`
store the value in `self.template`, else raise `ValueError` naming the key
(the membership test runs before any mutation). -/
def set_template_text (d : ObjDict) (template_parameter value : String) :
    Except PyErr ObjDict :=
  if template_parameter ∈ InvoiceGenerator.TEMPLATE_PARAMETERS then
    match dictGet d "template" with
    | some (.pytemplate t) =>
      .ok (dictSet d "template"
        (.pytemplate (strDictSet t template_parameter value)))
    | some _ => .error (.attributeError "template-items")
    | none => .error (.attributeError "template")
  else
    .error (.valueError ("The parameter " ++ template_parameter ++
      " is not a valid template parameter. See docs."))

/-- Method `toggle_subtotal`: replace `self.fields` wholesale. -/
def toggle_subtotal (d : ObjDict) (tax : String) (discounts shipping : Bool) :
    ObjDict :=
  dictSet d "fields" (.pyfields { tax := tax, discounts := discounts, shipping := shipping })

/-- One mutating method call on an invoice. -/
inductive Op where
  | addItem (name : Option String) (quantity unit_cost : Rat) (description : Option String)
  | addCustomField (name value : Option String)
  | setTemplateText (key value : String)
  | toggleSubtotal (tax : String) (discounts shipping : Bool)
  deriving DecidableEq, Repr

/-- Effect of a method call on the object state; a call that raises leaves
the state as it was (those methods check before mutating). -/
def applyOp (d : ObjDict) : Op → ObjDict
  | .addItem n q uc ds =>
    match add_item d n q uc ds with
    | .ok d2 => d2
    | .error _ => d
  | .addCustomField n v =>
    match add_custom_field d n v with
    | .ok d2 => d2
    | .error _ => d
  | .setTemplateText k v =>
    match set_template_text d k v with
    | .ok d2 => d2
    | .error _ => d
  | .toggleSubtotal t ds sh => toggle_subtotal d t ds sh

/-- Invoice states reachable from construction by any sequence of method
calls. -/
def Reachable (d : ObjDict) : Prop :=
  ∃ (moduleLoadDate callTime : PyDate) (p : InitParams) (ops : List Op),
    d = ops.foldl applyOp (initDict moduleLoadDate callTime p)

/-- Loop `object_dict["items"][index] = item.__dict__`: an `Item` instance
exposes its `__dict__`; a plain dict has no `__dict__` attribute and raises
`AttributeError`. -/
def slotsToDicts : List ItemSlot → Except PyErr (List ItemSlot)
  | [] => .ok []
  | .obj it :: rest => (slotsToDicts rest).map (.dict it :: ·)
  | .dict _ :: _ => .error (.attributeError "__dict__")

/-- Loop `object_dict["custom_fields"][index] = custom_field.__dict__`. -/
def cfSlotsToDicts : List CFSlot → Except PyErr (List CFSlot)
  | [] => .ok []
  | .obj cf :: rest => (cfSlotsToDicts rest).map (.dict cf :: ·)
  | .dict _ :: _ => .error (.attributeError "__dict__")

/-- Method `_to_json`, statement by statement.  `loc0` is the process
locale before the call; the first statement
`locale.setlocale(locale.LC_ALL, InvoiceGenerator.LOCALE)` replaces it, so
every `strftime` below runs under `InvoiceGenerator.LOCALE`.  The function
mutates `self.__dict__` in place and returns `json.dumps` of that same
dict; the returned `ObjDict` is therefore both the serialized JSON object
(its keys are the JSON object's fields) and the invoice's state after the
call.  An `Except.error` is an exception escaping the method. -/
def to_json (db : LocaleDB) (loc0 : String) (d : ObjDict) : Except PyErr ObjDict :=
  let loc := InvoiceGenerator.LOCALE
  let d1 := dictSet d "from" ((dictGet d "sender").getD .pynone)
  match dictGet d1 "date" with
  | some (.pydate dt) =>
    let d2 := dictSet d1 "date" (.pystr (strftime_d_b_Y db loc dt))
    match dictGet d2 "due_date" with
    | some dd =>
      let step3 : Except PyErr ObjDict :=
        if dd = PyVal.pynone then .ok d2
        else
          match dd with
          | .pydate ddt => .ok (dictSet d2 "due_date" (.pystr (strftime_d_b_Y db loc ddt)))
          | _ => .error (.attributeError "strftime")
      match step3 with
      | .error e => .error e
      | .ok d3 =>
        match dictPop d3 "sender" with
        | none => .error (.keyError "sender")
        | some d4 =>
          match dictGet d4 "items" with
          | some (.pyitems xs) =>
            match slotsToDicts xs with
            | .error e => .error e
            | .ok xs2 =>
              let d5 := dictSet d4 "items" (.pyitems xs2)
              match dictGet d5 "custom_fields" with
              | some (.pycfs cs) =>
                match cfSlotsToDicts cs with
                | .error e => .error e
                | .ok cs2 =>
                  let d6 := dictSet d5 "custom_fields" (.pycfs cs2)
                  match dictGet d6 "template" with
                  | some (.pytemplate t) =>
                    let d7 := t.foldl (fun acc kv => dictSet acc kv.1 (.pystr kv.2)) d6
                    match dictPop d7 "template" with
                    | none => .error (.keyError "template")
                    | some d8 => .ok d8
                  | some _ => .error (.attributeError "items")
                  | none => .error (.attributeError "template")
              | some _ => .error (.typeError "not-iterable")
              | none => .error (.keyError "custom_fields")
          | some _ => .error (.typeError "not-iterable")
          | none => .error (.keyError "items")
    | none => .error (.keyError "due_date")
  | some _ => .error (.attributeError "strftime")
  | none => .error (.attributeError "date")

/-- English-locale date string the serializer actually emits:
`strftime_d_b_Y` specialised to the pinned locale; independent of the
ambient locale database. -/
def fmtEn (dt : PyDate) : String :=
  pad2 dt.day ++ " " ++ enMonthAbbrev dt.month ++ " " ++ Nat.repr dt.year

/-- Fixed part of the wire object: the 18 renamed and reformatted base
entries with `"from"` appended, `"sender"` and `"template"` gone. -/
def wireHead (i : Invoice) : ObjDict :=
  [("logo", ostr i.logo),
   ("to", .pystr i.«to»),
   ("ship_to", ostr i.ship_to),
   ("number", ostr i.number),
   ("currency", .pystr i.currency),
   ("custom_fields", .pycfs (i.custom_fields.map CFSlot.dict)),
   ("date", .pystr (fmtEn i.date)),
   ("payment_terms", ostr i.payment_terms),
   ("due_date", match i.due_date with
     | none => .pynone
     | some dd => .pystr (fmtEn dd)),
   ("items", .pyitems (i.items.map ItemSlot.dict)),
   ("fields", .pyfields i.fields),
   ("discounts", .pynum i.discounts),
   ("tax", .pynum i.tax),
   ("shipping", .pynum i.shipping),
   ("amount_paid", .pynum i.amount_paid),
   ("notes", ostr i.notes),
   ("terms", ostr i.terms),
   ("from", .pystr i.sender)]

/-- Wire object (and post-serialization state): the fixed entries followed
by the template overrides merged in as top-level siblings. -/
def wireDict (i : Invoice) : ObjDict :=
  wireHead i ++ i.template.map (fun kv => (kv.1, PyVal.pystr kv.2))

/-- HTTP response to the POST, as the `requests` library presents it:
status code, raw body bytes (`response.content`), and the string rendering
of `response.json()`, the parsed error body. -/
structure HttpResponse where
  status : Nat
  content : List Nat
  parsedBody : String
  deriving DecidableEq, Repr

/-- File system: contents by path. -/
abbrev FileSystem := String → Option (List Nat)

/-- Effect of `open(file_path, "wb").write(bytes)`: truncate and write,
overwriting whatever was there. -/
def fsWrite (fs : FileSystem) (path : String) (bytes : List Nat) : FileSystem :=
  fun p => if p = path then some bytes else fs p

/-- Outcome of `download`: normal return or a raised `Exception` message. -/
inductive DownloadResult where
  | ok
  | raised (msg : String)
  deriving DecidableEq, Repr

/-- Method `download` after the POST came back: on status 200 write
`response.content` to `file_path`, otherwise raise the f-string
`Exception` carrying the parsed body and the status code, touching no
file.  The returned file system is the state after the call. -/
def download (resp : HttpResponse) (file_path : String) (fs : FileSystem) :
    DownloadResult × FileSystem :=
  if resp.status = 200 then
    (.ok, fsWrite fs file_path resp.content)
  else
    (.raised ("Invoice download request returned the following message:" ++
      resp.parsedBody ++ " Response code = " ++ Nat.repr resp.status ++ " "), fs)

/-- One cleaned row of `transactions.csv`: `clean` has already parsed the
`Date (UTC)` column with `strptime("%m-%d-%Y").date()` and the `Amount`
column with `float`. -/
structure TxRecord where
  date : PyDate
  description : String
  amount : Rat
  deriving DecidableEq, Repr

/-- One submission the batch loop performs: the invoice object as built
(before `download` serializes it) and the target PDF path. -/
structure Submission where
  invoice : ObjDict
  file_path : String
  deriving DecidableEq, Repr

/-- Constructor arguments the batch script passes:
`InvoiceGenerator("EA2 Consulting", to=row[description], date=row[date_key])`,
everything else left at its default. -/
def batchParams (row : TxRecord) : InitParams :=
  { sender := "EA2 Consulting", «to» := row.description, logo := none,
    ship_to := none, number := none, payments_terms := none, due_date := none,
    notes := none, terms := none, currency := "USD", date := some row.date,
    discounts := 0, tax := 0, shipping := 0, amount_paid := 0 }

/-- The `__main__` loop over the cleaned rows: rows with `amount < 0` are
skipped by `continue`; for every other row an invoice is built, one item
is added (`name="Consultative services", quantity=1, unit_cost=amount`,
description defaulted), and the invoice is submitted to
`invoices/<str(date)>.pdf`.  The per-iteration `time.sleep(1)` has no
modelled effect. -/
def runBatch (moduleLoadDate callTime : PyDate) :
    List TxRecord → Except PyErr (List Submission)
  | [] => .ok []
  | row :: rest =>
    if row.amount < 0 then
      runBatch moduleLoadDate callTime rest
    else do
      let inv := initDict moduleLoadDate callTime (batchParams row)
      let inv2 ← add_item inv (some "Consultative services") 1 row.amount none
      let subs ← runBatch moduleLoadDate callTime rest
      .ok (⟨inv2, "invoices/" ++ isoDate row.date ++ ".pdf"⟩ :: subs)

/-- State of the invoice the batch loop submits for a row, written out. -/
def batchInvoiceDict (row : TxRecord) : ObjDict :=
  [("logo", .pynone),
   ("sender", .pystr "EA2 Consulting"),
   ("to", .pystr row.description),
   ("ship_to", .pynone),
   ("number", .pynone),
   ("currency", .pystr "USD"),
   ("custom_fields", .pycfs []),
   ("date", .pydate row.date),
   ("payment_terms", .pynone),
   ("due_date", .pynone),
   ("items", .pyitems [.obj ⟨some "Consultative services", 1, row.amount, none⟩]),
   ("fields", .pyfields ⟨"%", false, false⟩),
   ("discounts", .pynum 0),
   ("tax", .pynum 0),
   ("shipping", .pynum 0),
   ("amount_paid", .pynum 0),
   ("notes", .pynone),
   ("terms", .pynone),
   ("template", .pytemplate [])]

/-- A locale database for concrete instances: every other locale renders
every month as `"XX"`, deliberately unlike the `en_US` table. -/
def xxDB : LocaleDB := fun _ _ => "XX"

/-- Template state is well formed: every key passed the allow-list check
and, being dict keys, the keys are distinct. -/
def TemplateOK (t : List (String × String)) : Prop :=
  (∀ kv ∈ t, kv.1 ∈ InvoiceGenerator.TEMPLATE_PARAMETERS) ∧
    (t.map Prod.fst).Nodup

/-- Typed invoice state with a well formed template. -/
def InvOK (i : Invoice) : Prop :=
  TemplateOK i.template

instance (t : List (String × String)) : Decidable (TemplateOK t) := by
  unfold TemplateOK
  infer_instance

instance (i : Invoice) : Decidable (InvOK i) := by
  unfold InvOK
  infer_instance

/-- Arguments of one `add_item` call. -/
structure AddCall where
  name : Option String
  quantity : Rat
  unit_cost : Rat
  description : Option String
  deriving DecidableEq, Repr

/-- Object state after constructing an invoice and making the given
`add_item` calls in order. -/
def addCallsState (moduleLoadDate callTime : PyDate) (p : InitParams)
    (calls : List AddCall) : ObjDict :=
  (calls.map (fun c => Op.addItem c.name c.quantity c.unit_cost c.description)).foldl
    applyOp (initDict moduleLoadDate callTime p)

/-- Substring fact on the character level: `sub` occurs contiguously in `s`. -/
def StrContains (s sub : String) : Prop :=
  ∃ a b : List Char, s.data = a ++ sub.data ++ b

/-- Concrete module-load instant for witnesses. -/
def mld0 : PyDate := ⟨2023, 11, 30, 77⟩

/-- Concrete constructor arguments: required sender and recipient only,
everything else defaulted. -/
def p0 : InitParams :=
  ⟨"Alice", "Bob", none, none, none, none, none, none, none, "USD", none, 0, 0, 0, 0⟩

/-- Second concrete argument record, also without an explicit date. -/
def q0 : InitParams :=
  ⟨"Erin", "Frank", none, none, none, none, none, none, none, "USD", none, 1, 2, 3, 4⟩

/-- Concrete reachable state: construct from `p0`, then
`set_template_text("header", "Hi")`. -/
def d0 : ObjDict :=
  [Op.setTemplateText "header" "Hi"].foldl applyOp (initDict mld0 mld0 p0)

/-- Typed concrete invoice matching `d0`. -/
def i0 : Invoice :=
  ⟨none, "Alice", "Bob", none, none, "USD", [], ⟨2023, 11, 30, 77⟩, none, none,
   [], ⟨"%", false, false⟩, 0, 0, 0, 0, none, none, [("header", "Hi")]⟩

/-- Concrete invoice with a due date, an item, a custom field and a
template override; its issue date is the spec's example 2024-01-05. -/
def i1 : Invoice :=
  ⟨none, "Carol", "Dave", none, some "42", "EUR", [⟨some "po", some "99"⟩],
   ⟨2024, 1, 5, 0⟩, none, some ⟨2024, 12, 31, 3600⟩,
   [⟨some "Widget", 2, 10, none⟩], ⟨"%", false, false⟩, 0, 0, 0, 0, none, none,
   [("notes_title", "NB")]⟩

/-- Concrete 200 response carrying the bytes `%PDF`. -/
def resp200 : HttpResponse := ⟨200, [37, 80, 68, 70], ""⟩

/-- Concrete 404 response whose parsed body renders the server error
object for `bad request`. -/
def resp404 : HttpResponse := ⟨404, [], "\x7b\x22error\x22: \x22bad request\x22\x7d"⟩

/-- Empty file system. -/
def fs0 : FileSystem := fun _ => none

/-- Concrete transaction with amount exactly zero. -/
def rowZero : TxRecord := ⟨⟨2024, 1, 6, 0⟩, "Z", 0⟩

/-- The object dict at the point of `_to_json` just before the template
merge: `"from"` appended, dates stringified, item and custom-field lists
rewritten to their `__dict__`s, `"sender"` popped, `"template"` still
present. -/
def preMergeDict (i : Invoice) : ObjDict :=
  [("logo", ostr i.logo),
   ("to", .pystr i.«to»),
   ("ship_to", ostr i.ship_to),
   ("number", ostr i.number),
   ("currency", .pystr i.currency),
   ("custom_fields", .pycfs (i.custom_fields.map CFSlot.dict)),
   ("date", .pystr (fmtEn i.date)),
   ("payment_terms", ostr i.payment_terms),
   ("due_date", match i.due_date with
     | none => .pynone
     | some dd => .pystr (fmtEn dd)),
   ("items", .pyitems (i.items.map ItemSlot.dict)),
   ("fields", .pyfields i.fields),
   ("discounts", .pynum i.discounts),
   ("tax", .pynum i.tax),
   ("shipping", .pynum i.shipping),
   ("amount_paid", .pynum i.amount_paid),
   ("notes", ostr i.notes),
   ("terms", ostr i.terms),
   ("template", .pytemplate i.template),
   ("from", .pystr i.sender)]

/-- Attribute keys of an invoice object dict before serialization, plus
`"from"`: the keys a template override must avoid colliding with. -/
def baseKeys : List String :=
  ["logo", "sender", "to", "ship_to", "number", "currency", "custom_fields",
   "date", "payment_terms", "due_date", "items", "fields", "discounts",
   "tax", "shipping", "amount_paid", "notes", "terms", "template", "from"]

/-- Keys of `wireHead`, in order. -/
def wireHeadKeys : List String :=
  ["logo", "to", "ship_to", "number", "currency", "custom_fields", "date",
   "payment_terms", "due_date", "items", "fields", "discounts", "tax",
   "shipping", "amount_paid", "notes", "terms", "from"]

/-- Keys of `preMergeDict`, in order. -/
def preMergeKeys : List String :=
  ["logo", "to", "ship_to", "number", "currency", "custom_fields", "date",
   "payment_terms", "due_date", "items", "fields", "discounts", "tax",
   "shipping", "amount_paid", "notes", "terms", "template", "from"]

section DictLemmas

theorem dictGet_append_left {A : ObjDict} (B : ObjDict) {k : String} {v : PyVal}
    (h : dictGet A k = some v) : dictGet (A ++ B) k = some v := by
  induction A with
  | nil => simp [dictGet] at h
  | cons a rest ih =>
    obtain ⟨ka, va⟩ := a
    by_cases hk : ka = k
    · subst hk
      simp [dictGet] at h ⊢
      exact h
    · simp [dictGet, hk] at h ⊢
      exact ih h

theorem dictGet_append_right {A : ObjDict} (B : ObjDict) {k : String}
    (h : dictGet A k = none) : dictGet (A ++ B) k = dictGet B k := by
  induction A with
  | nil => simp
  | cons a rest ih =>
    obtain ⟨ka, va⟩ := a
    by_cases hk : ka = k
    · subst hk
      simp [dictGet] at h
    · simp [dictGet, hk] at h ⊢
      exact ih h

theorem dictGet_eq_none_of_not_mem {A : ObjDict} {k : String}
    (h : k ∉ A.map Prod.fst) : dictGet A k = none := by
  induction A with
  | nil => rfl
  | cons a rest ih =>
    obtain ⟨ka, va⟩ := a
    simp only [List.map_cons, List.mem_cons, not_or] at h
    show (if ka = k then some va else dictGet rest k) = none
    rw [if_neg (fun hh => h.1 hh.symm)]
    exact ih h.2

theorem dictSet_fresh {A : ObjDict} {k : String} (v : PyVal)
    (h : dictGet A k = none) : dictSet A k v = A ++ [(k, v)] := by
  induction A with
  | nil => rfl
  | cons a rest ih =>
    obtain ⟨ka, va⟩ := a
    by_cases hk : ka = k
    · subst hk
      simp [dictGet] at h
    · simp [dictGet, hk] at h
      simp [dictSet, hk, ih h]

theorem dictPop_append_left {A : ObjDict} (B : ObjDict) {k : String} {A2 : ObjDict}
    (h : dictPop A k = some A2) : dictPop (A ++ B) k = some (A2 ++ B) := by
  induction A generalizing A2 with
  | nil => simp [dictPop] at h
  | cons a rest ih =>
    obtain ⟨ka, va⟩ := a
    by_cases hk : ka = k
    · subst hk
      simp [dictPop] at h ⊢
      simp [← h]
    · simp [dictPop, hk] at h ⊢
      obtain ⟨A3, h3, rfl⟩ := h
      exact ⟨A3 ++ B, ih h3, rfl⟩

theorem foldl_dictSet_fresh {t : List (String × String)} {D : ObjDict}
    (hf : ∀ kv ∈ t, dictGet D kv.1 = none)
    (hnd : (t.map Prod.fst).Nodup) :
    t.foldl (fun acc kv => dictSet acc kv.1 (.pystr kv.2)) D =
      D ++ t.map (fun kv => (kv.1, PyVal.pystr kv.2)) := by
  induction t generalizing D with
  | nil => simp
  | cons kv rest ih =>
    obtain ⟨k, v⟩ := kv
    simp only [List.map_cons, List.nodup_cons] at hnd
    have hfresh : dictGet D k = none := hf (k, v) (List.mem_cons_self _ _)
    have hstep : dictSet D k (.pystr v) = D ++ [(k, PyVal.pystr v)] :=
      dictSet_fresh _ hfresh
    have hrest : ∀ kv2 ∈ rest, dictGet (D ++ [(k, PyVal.pystr v)]) kv2.1 = none := by
      intro kv2 hm
      have h1 : dictGet D kv2.1 = none := hf kv2 (List.mem_cons_of_mem _ hm)
      have h2 : kv2.1 ≠ k := by
        intro hcontra
        exact hnd.1 (hcontra ▸ List.mem_map_of_mem Prod.fst hm)
      rw [dictGet_append_right _ h1]
      simp [dictGet, h2.symm]
    calc (rest.foldl (fun acc kv => dictSet acc kv.1 (.pystr kv.2))
            (dictSet D k (.pystr v)))
        = rest.foldl (fun acc kv => dictSet acc kv.1 (.pystr kv.2))
            (D ++ [(k, PyVal.pystr v)]) := by rw [hstep]
      _ = (D ++ [(k, PyVal.pystr v)]) ++
            rest.map (fun kv => (kv.1, PyVal.pystr kv.2)) := ih hrest hnd.2
      _ = D ++ (k, PyVal.pystr v) ::
            rest.map (fun kv => (kv.1, PyVal.pystr kv.2)) := by simp

theorem slotsToDicts_map_obj (xs : List Item) :
    slotsToDicts (xs.map ItemSlot.obj) = .ok (xs.map ItemSlot.dict) := by
  induction xs with
  | nil => rfl
  | cons x rest ih => simp [slotsToDicts, Except.map, ih]

theorem cfSlotsToDicts_map_obj (xs : List CustomField) :
    cfSlotsToDicts (xs.map CFSlot.obj) = .ok (xs.map CFSlot.dict) := by
  induction xs with
  | nil => rfl
  | cons x rest ih => simp [cfSlotsToDicts, Except.map, ih]

theorem strftime_pinned (db : LocaleDB) (dt : PyDate) :
    strftime_d_b_Y db InvoiceGenerator.LOCALE dt = fmtEn dt := by
  simp [strftime_d_b_Y, monthAbbrevIn, fmtEn]

theorem allowlist_avoids_baseKeys :
    ∀ k ∈ InvoiceGenerator.TEMPLATE_PARAMETERS, k ∉ baseKeys := by
  decide

theorem to_json_on_repr (db : LocaleDB) (loc0 : String) (i : Invoice) :
    to_json db loc0 (reprDict i) =
      match dictPop
          (i.template.foldl (fun acc kv => dictSet acc kv.1 (.pystr kv.2))
            (preMergeDict i))
          "template" with
      | none => Except.error (.keyError "template")
      | some d8 => Except.ok d8 := by
  cases hdd : i.due_date with
  | none =>
    simp [to_json, reprDict, preMergeDict, hdd, slotsToDicts_map_obj,
      cfSlotsToDicts_map_obj, dictGet, dictSet, odate, fmtEn,
      strftime_d_b_Y, monthAbbrevIn, dictPop]
  | some ddt =>
    simp [to_json, reprDict, preMergeDict, hdd, slotsToDicts_map_obj,
      cfSlotsToDicts_map_obj, dictGet, dictSet, odate, fmtEn,
      strftime_d_b_Y, monthAbbrevIn, dictPop]

theorem preMerge_keys (i : Invoice) :
    (preMergeDict i).map Prod.fst = preMergeKeys := rfl

theorem preMergeKeys_sub_baseKeys : ∀ k ∈ preMergeKeys, k ∈ baseKeys := by
  decide

/-- Central computation: on any invoice state whose template passed the
allow-list check, `_to_json` succeeds and produces exactly `wireDict`. -/
theorem to_json_wire (db : LocaleDB) (loc0 : String) (i : Invoice)
    (h : TemplateOK i.template) :
    to_json db loc0 (reprDict i) = .ok (wireDict i) := by
  rw [to_json_on_repr]
  have hfresh : ∀ kv ∈ i.template, dictGet (preMergeDict i) kv.1 = none := by
    intro kv hm
    apply dictGet_eq_none_of_not_mem
    rw [preMerge_keys]
    intro hmem
    exact allowlist_avoids_baseKeys kv.1 (h.1 kv hm)
      (preMergeKeys_sub_baseKeys kv.1 hmem)
  rw [foldl_dictSet_fresh hfresh h.2]
  rw [dictPop_append_left _ (show dictPop (preMergeDict i) "template" = some _ from rfl)]
  simp [wireDict, wireHead]

theorem wireHead_keys (i : Invoice) :
    (wireHead i).map Prod.fst = wireHeadKeys := rfl

theorem allowlist_avoids_wireHeadKeys :
    ∀ k ∈ InvoiceGenerator.TEMPLATE_PARAMETERS, k ∉ wireHeadKeys := by
  decide

theorem wireHead_get_none_of_allowlisted (i : Invoice) {k : String}
    (hk : k ∈ InvoiceGenerator.TEMPLATE_PARAMETERS) :
    dictGet (wireHead i) k = none := by
  apply dictGet_eq_none_of_not_mem
  rw [wireHead_keys]
  exact allowlist_avoids_wireHeadKeys k hk

theorem merged_get_none (i : Invoice) (hok : TemplateOK i.template) {k : String}
    (hk : k ∉ InvoiceGenerator.TEMPLATE_PARAMETERS) :
    dictGet (i.template.map (fun kv => (kv.1, PyVal.pystr kv.2))) k = none := by
  apply dictGet_eq_none_of_not_mem
  intro hm
  have hex : ∃ kv ∈ i.template, kv.1 = k := by simpa using hm
  obtain ⟨kv, hkv, rfl⟩ := hex
  exact hk (hok.1 kv hkv)

theorem merged_get_mem {t : List (String × String)}
    (hnd : (t.map Prod.fst).Nodup) {kv : String × String} (hm : kv ∈ t) :
    dictGet (t.map (fun kv2 => (kv2.1, PyVal.pystr kv2.2))) kv.1 =
      some (.pystr kv.2) := by
  induction t with
  | nil => cases hm
  | cons hd rest ih =>
    obtain ⟨k0, v0⟩ := hd
    simp only [List.map_cons, List.nodup_cons] at hnd
    rcases List.mem_cons.mp hm with heq | hrest
    · subst heq
      simp [dictGet]
    · have hk0 : k0 ≠ kv.1 := by
        intro hcontra
        exact hnd.1 (hcontra ▸ List.mem_map_of_mem Prod.fst hrest)
      show (if k0 = kv.1 then some (PyVal.pystr v0)
        else dictGet (rest.map (fun kv2 => (kv2.1, PyVal.pystr kv2.2))) kv.1) = _
      rw [if_neg hk0]
      exact ih hnd.2 hrest

end DictLemmas

section Simulation

theorem strDictSet_entry_cases {t : List (String × String)} {k v : String} :
    ∀ kv ∈ strDictSet t k v, kv.1 = k ∨ kv ∈ t := by
  induction t with
  | nil =>
    intro kv hm
    simp [strDictSet] at hm
    left
    rw [hm]
  | cons hd rest ih =>
    obtain ⟨k0, v0⟩ := hd
    intro kv hm
    by_cases hk : k0 = k
    · simp [strDictSet, hk] at hm
      rcases hm with h1 | h2
      · left
        rw [h1]
      · right
        exact List.mem_cons_of_mem _ h2
    · simp only [strDictSet, if_neg hk] at hm
      rcases List.mem_cons.mp hm with h1 | h2
      · right
        exact h1 ▸ List.mem_cons_self _ _
      · rcases ih kv h2 with h3 | h4
        · left
          exact h3
        · right
          exact List.mem_cons_of_mem _ h4

theorem strDictSet_keys_cases {t : List (String × String)} {k v : String} :
    ∀ k2 ∈ (strDictSet t k v).map Prod.fst, k2 = k ∨ k2 ∈ t.map Prod.fst := by
  intro k2 hm
  obtain ⟨kv, hkv, rfl⟩ := List.mem_map.mp hm
  rcases strDictSet_entry_cases kv hkv with h1 | h2
  · left
    exact h1
  · right
    exact List.mem_map_of_mem Prod.fst h2

theorem strDictSet_keys_nodup {t : List (String × String)} {k v : String}
    (h : (t.map Prod.fst).Nodup) :
    ((strDictSet t k v).map Prod.fst).Nodup := by
  induction t with
  | nil => simp [strDictSet]
  | cons hd rest ih =>
    obtain ⟨k0, v0⟩ := hd
    simp only [List.map_cons, List.nodup_cons] at h
    by_cases hk : k0 = k
    · simp only [strDictSet, if_pos hk, List.map_cons, List.nodup_cons]
      exact ⟨h.1, h.2⟩
    · simp only [strDictSet, if_neg hk, List.map_cons, List.nodup_cons]
      refine ⟨?_, ih h.2⟩
      intro hmem
      rcases strDictSet_keys_cases k0 hmem with h1 | h2
      · exact hk h1
      · exact h.1 h2

theorem templateOK_strDictSet {t : List (String × String)} {k v : String}
    (h : TemplateOK t) (hk : k ∈ InvoiceGenerator.TEMPLATE_PARAMETERS) :
    TemplateOK (strDictSet t k v) := by
  constructor
  · intro kv hm
    rcases strDictSet_entry_cases kv hm with h1 | h2
    · rw [h1]
      exact hk
    · exact h.1 kv h2
  · exact strDictSet_keys_nodup h.2

theorem strDictGet_strDictSet (t : List (String × String)) (k v : String) :
    strDictGet (strDictSet t k v) k = some v := by
  induction t with
  | nil => simp [strDictSet, strDictGet]
  | cons hd rest ih =>
    obtain ⟨k0, v0⟩ := hd
    by_cases hk : k0 = k
    · simp [strDictSet, strDictGet, hk]
    · simp [strDictSet, strDictGet, hk, ih]

theorem add_item_repr (i : Invoice) (n : Option String) (q uc : Rat)
    (ds : Option String) :
    add_item (reprDict i) n q uc ds =
      .ok (reprDict { i with items := i.items ++ [⟨n, q, uc, ds⟩] }) := by
  simp [add_item, reprDict, dictGet, dictSet]

theorem add_custom_field_repr (i : Invoice) (n v : Option String) :
    add_custom_field (reprDict i) n v =
      .ok (reprDict { i with custom_fields := i.custom_fields ++ [⟨n, v⟩] }) := by
  simp [add_custom_field, reprDict, dictGet, dictSet]

theorem toggle_subtotal_repr (i : Invoice) (t : String) (ds sh : Bool) :
    toggle_subtotal (reprDict i) t ds sh =
      reprDict { i with fields := ⟨t, ds, sh⟩ } := by
  simp [toggle_subtotal, reprDict, dictSet]

theorem set_template_text_repr_ok (i : Invoice) {k : String} (v : String)
    (hk : k ∈ InvoiceGenerator.TEMPLATE_PARAMETERS) :
    set_template_text (reprDict i) k v =
      .ok (reprDict { i with template := strDictSet i.template k v }) := by
  simp [set_template_text, hk, reprDict, dictGet, dictSet]

theorem set_template_text_invalid (d : ObjDict) {k : String} (v : String)
    (hk : k ∉ InvoiceGenerator.TEMPLATE_PARAMETERS) :
    set_template_text d k v =
      .error (.valueError ("The parameter " ++ k ++
        " is not a valid template parameter. See docs.")) := by
  simp [set_template_text, hk]

theorem applyOp_repr (i : Invoice) (op : Op) (h : TemplateOK i.template) :
    ∃ i2 : Invoice, applyOp (reprDict i) op = reprDict i2 ∧
      TemplateOK i2.template := by
  cases op with
  | addItem n q uc ds =>
    exact ⟨{ i with items := i.items ++ [⟨n, q, uc, ds⟩] },
      by simp [applyOp, add_item_repr], h⟩
  | addCustomField n v =>
    exact ⟨{ i with custom_fields := i.custom_fields ++ [⟨n, v⟩] },
      by simp [applyOp, add_custom_field_repr], h⟩
  | setTemplateText k v =>
    by_cases hk : k ∈ InvoiceGenerator.TEMPLATE_PARAMETERS
    · exact ⟨{ i with template := strDictSet i.template k v },
        by simp [applyOp, set_template_text_repr_ok i v hk],
        templateOK_strDictSet h hk⟩
    · exact ⟨i, by simp [applyOp, set_template_text_invalid _ v hk], h⟩
  | toggleSubtotal t ds sh =>
    exact ⟨{ i with fields := ⟨t, ds, sh⟩ },
      by simp [applyOp, toggle_subtotal_repr], h⟩

theorem foldl_applyOp_repr (ops : List Op) (i : Invoice)
    (h : TemplateOK i.template) :
    ∃ i2 : Invoice, ops.foldl applyOp (reprDict i) = reprDict i2 ∧
      TemplateOK i2.template := by
  induction ops generalizing i with
  | nil => exact ⟨i, rfl, h⟩
  | cons op rest ih =>
    obtain ⟨i1, e1, h1⟩ := applyOp_repr i op h
    obtain ⟨i2, e2, h2⟩ := ih i1 h1
    exact ⟨i2, by simp [e1, e2], h2⟩

/-- Every reachable object state is the dict of a typed invoice whose
template passed the allow-list check. -/
theorem reachable_repr {d : ObjDict} (h : Reachable d) :
    ∃ i : Invoice, d = reprDict i ∧ TemplateOK i.template := by
  obtain ⟨mld, ct, p, ops, rfl⟩ := h
  have hinit : TemplateOK (initInv mld ct p).template := by
    constructor
    · intro kv hm
      cases hm
    · simp [initInv]
  obtain ⟨i2, e2, h2⟩ := foldl_applyOp_repr ops (initInv mld ct p) hinit
  exact ⟨i2, by rw [← e2, initDict], h2⟩

end Simulation

section WireLemmas

theorem dictGet_dictSet_ne {A : ObjDict} {k k2 : String} (v : PyVal)
    (h : k ≠ k2) : dictGet (dictSet A k v) k2 = dictGet A k2 := by
  induction A with
  | nil => simp [dictSet, dictGet, h]
  | cons a rest ih =>
    obtain ⟨ka, va⟩ := a
    by_cases hk : ka = k
    · subst hk
      simp [dictSet, dictGet, h]
    · simp [dictSet, dictGet, hk, ih]

theorem dictSet_append_left {A : ObjDict} (B : ObjDict) {k : String} (v : PyVal)
    (h : k ∈ A.map Prod.fst) :
    dictSet (A ++ B) k v = dictSet A k v ++ B := by
  induction A with
  | nil => cases h
  | cons a rest ih =>
    obtain ⟨ka, va⟩ := a
    by_cases hk : ka = k
    · simp [dictSet, hk]
    · rcases List.mem_cons.mp h with h1 | h2
      · exact absurd h1.symm hk
      · simp [dictSet, hk, ih h2]

theorem wire_sender_none (i : Invoice) (hok : TemplateOK i.template) :
    dictGet (wireDict i) "sender" = none := by
  rw [wireDict,
    dictGet_append_right _ (show dictGet (wireHead i) "sender" = none from rfl)]
  exact merged_get_none i hok (by decide)

theorem wire_template_none (i : Invoice) (hok : TemplateOK i.template) :
    dictGet (wireDict i) "template" = none := by
  rw [wireDict,
    dictGet_append_right _ (show dictGet (wireHead i) "template" = none from rfl)]
  exact merged_get_none i hok (by decide)

theorem wire_from (i : Invoice) :
    dictGet (wireDict i) "from" = some (.pystr i.sender) := by
  rw [wireDict]
  exact dictGet_append_left _ rfl

theorem wire_date (i : Invoice) :
    dictGet (wireDict i) "date" = some (.pystr (fmtEn i.date)) := by
  rw [wireDict]
  exact dictGet_append_left _ rfl

theorem wire_items (i : Invoice) :
    dictGet (wireDict i) "items" =
      some (.pyitems (i.items.map ItemSlot.dict)) := by
  rw [wireDict]
  exact dictGet_append_left _ rfl

theorem foldl_addItems (i : Invoice) (calls : List AddCall) :
    (calls.map (fun c => Op.addItem c.name c.quantity c.unit_cost c.description)).foldl
      applyOp (reprDict i) =
      reprDict { i with
        items := (i.items ++
          calls.map (fun c => (⟨c.name, c.quantity, c.unit_cost, c.description⟩ : Item))) } := by
  induction calls generalizing i with
  | nil => simp
  | cons c rest ih =>
    simp only [List.map_cons, List.foldl_cons, applyOp, add_item_repr]
    rw [ih]
    simp [List.append_assoc]

end WireLemmas

/-- C1: serializing any reachable invoice yields a JSON object with no
field named `"sender"`, no field named `"template"`, a `"from"` field
equal to the invoice's stored sender, and every stored template-override
key as a top-level field whose value equals the override value. -/
theorem C1_serialized_object_fields (db : LocaleDB) (loc0 : String)
    (d : ObjDict) (h : Reachable d) :
    ∃ w, to_json db loc0 d = .ok w ∧
      dictGet w "sender" = none ∧
      dictGet w "template" = none ∧
      (∀ s, dictGet d "sender" = some (.pystr s) →
        dictGet w "from" = some (.pystr s)) ∧
      (∀ t, dictGet d "template" = some (.pytemplate t) →
        ∀ kv ∈ t, dictGet w kv.1 = some (.pystr kv.2)) := by
  obtain ⟨i, rfl, hok⟩ := reachable_repr h
  refine ⟨wireDict i, to_json_wire db loc0 i hok,
    wire_sender_none i hok, wire_template_none i hok, ?_, ?_⟩
  · intro s hs
    have he : (some (PyVal.pystr i.sender) : Option PyVal) = some (.pystr s) := hs
    have hss : i.sender = s := by
      injection he with he2
      injection he2
    rw [← hss]
    exact wire_from i
  · intro t ht kv hm
    have he : (some (PyVal.pytemplate i.template) : Option PyVal) =
        some (.pytemplate t) := ht
    have htt : i.template = t := by
      injection he with he2
      injection he2
    subst htt
    rw [wireDict,
      dictGet_append_right _ (wireHead_get_none_of_allowlisted i (hok.1 kv hm))]
    exact merged_get_mem hok.2 hm

/-- Witness for C1 at the concrete reachable state `d0`. -/
theorem C1_witness :
    ∃ w, to_json xxDB "fr_FR" d0 = .ok w ∧
      dictGet w "sender" = none ∧
      dictGet w "template" = none ∧
      (∀ s, dictGet d0 "sender" = some (.pystr s) →
        dictGet w "from" = some (.pystr s)) ∧
      (∀ t, dictGet d0 "template" = some (.pytemplate t) →
        ∀ kv ∈ t, dictGet w kv.1 = some (.pystr kv.2)) :=
  C1_serialized_object_fields xxDB "fr_FR" d0
    ⟨mld0, mld0, p0, [Op.setTemplateText "header" "Hi"], rfl⟩

/-- C2: `set_template_text` on any invoice state fails with the
`ValueError` naming the key and leaves the whole object state unchanged
when the key is outside the fixed 21-entry allow-list, and succeeds,
storing the value under the key, when the key is in the allow-list. -/
theorem C2_set_template_text_allowlist (i : Invoice) (k v : String) :
    InvoiceGenerator.TEMPLATE_PARAMETERS.length = 21 ∧
    (k ∉ InvoiceGenerator.TEMPLATE_PARAMETERS →
      set_template_text (reprDict i) k v =
        .error (.valueError ("The parameter " ++ k ++
          " is not a valid template parameter. See docs.")) ∧
      applyOp (reprDict i) (.setTemplateText k v) = reprDict i) ∧
    (k ∈ InvoiceGenerator.TEMPLATE_PARAMETERS →
      set_template_text (reprDict i) k v =
        .ok (reprDict { i with template := strDictSet i.template k v }) ∧
      strDictGet (strDictSet i.template k v) k = some v) := by
  refine ⟨rfl, fun hk => ⟨set_template_text_invalid _ v hk, ?_⟩,
    fun hk => ⟨set_template_text_repr_ok i v hk, strDictGet_strDictSet _ k v⟩⟩
  simp [applyOp, set_template_text_invalid _ v hk]

/-- Witness for C2: the rejected key `"bogus"` and the accepted key
`"header"` on the concrete invoice `i0`. -/
theorem C2_witness :
    (set_template_text (reprDict i0) "bogus" "X" =
      .error (.valueError ("The parameter " ++ "bogus" ++
        " is not a valid template parameter. See docs.")) ∧
      applyOp (reprDict i0) (.setTemplateText "bogus" "X") = reprDict i0) ∧
    (set_template_text (reprDict i0) "header" "Hello" =
      .ok (reprDict { i0 with template := strDictSet i0.template "header" "Hello" }) ∧
      strDictGet (strDictSet i0.template "header" "Hello") "header" = some "Hello") :=
  ⟨(C2_set_template_text_allowlist i0 "bogus" "X").2.1 (by decide),
   (C2_set_template_text_allowlist i0 "header" "Hello").2.2 (by decide)⟩

/-- C8: in every reachable invoice state the stored template-override
mapping exists and all of its keys are members of the fixed allow-list. -/
theorem C8_template_invariant (d : ObjDict) (h : Reachable d) :
    ∃ t, dictGet d "template" = some (.pytemplate t) ∧
      ∀ kv ∈ t, kv.1 ∈ InvoiceGenerator.TEMPLATE_PARAMETERS := by
  obtain ⟨i, rfl, hok⟩ := reachable_repr h
  exact ⟨i.template, rfl, hok.1⟩

/-- Witness for C8 at the concrete reachable state `d0`. -/
theorem C8_witness :
    ∃ t, dictGet d0 "template" = some (.pytemplate t) ∧
      ∀ kv ∈ t, kv.1 ∈ InvoiceGenerator.TEMPLATE_PARAMETERS :=
  C8_template_invariant d0
    ⟨mld0, mld0, p0, [Op.setTemplateText "header" "Hi"], rfl⟩

/-- C4: for any invoice with a valid issue date, serialization formats the
date (and the due date when present) as zero-padded two-digit day, the
three-letter month abbreviation from the fixed `en_US` table, and the
year, and the result is independent of the ambient locale database and of
the process locale before the call. -/
theorem C4_date_format (db db2 : LocaleDB) (loc0 loc02 : String) (i : Invoice)
    (hok : TemplateOK i.template)
    (hm1 : 1 ≤ i.date.month) (hm2 : i.date.month ≤ 12)
    (hd1 : 1 ≤ i.date.day) (hd2 : i.date.day ≤ 31) :
    ∃ w, to_json db loc0 (reprDict i) = .ok w ∧
      dictGet w "date" = some (.pystr (pad2 i.date.day ++ " " ++
        enMonthAbbrev i.date.month ++ " " ++ Nat.repr i.date.year)) ∧
      (pad2 i.date.day).length = 2 ∧
      (enMonthAbbrev i.date.month).length = 3 ∧
      (∀ dd, i.due_date = some dd →
        dictGet w "due_date" = some (.pystr (pad2 dd.day ++ " " ++
          enMonthAbbrev dd.month ++ " " ++ Nat.repr dd.year))) ∧
      to_json db2 loc02 (reprDict i) = to_json db loc0 (reprDict i) := by
  have hpad : ∀ n < 32, 1 ≤ n → (pad2 n).length = 2 := by decide
  have habbr : ∀ m < 13, 1 ≤ m → (enMonthAbbrev m).length = 3 := by decide
  refine ⟨wireDict i, to_json_wire db loc0 i hok, wire_date i,
    hpad i.date.day (Nat.lt_succ_of_le hd2) hd1,
    habbr i.date.month (Nat.lt_succ_of_le hm2) hm1, ?_, ?_⟩
  · intro dd hdd
    rw [wireDict]
    apply dictGet_append_left
    simp [wireHead, dictGet, hdd, fmtEn]
  · rw [to_json_wire db loc0 i hok, to_json_wire db2 loc02 i hok]

/-- Witness for C4 at the concrete invoice `i1` (issue date 2024-01-05,
the spec's example, and a due date 2024-12-31). -/
theorem C4_witness :
    ∃ w, to_json xxDB "de_DE" (reprDict i1) = .ok w ∧
      dictGet w "date" = some (.pystr "05 Jan 2024") ∧
      ("05" : String).length = 2 ∧
      ("Jan" : String).length = 3 ∧
      (∀ dd, i1.due_date = some dd →
        dictGet w "due_date" = some (.pystr (pad2 dd.day ++ " " ++
          enMonthAbbrev dd.month ++ " " ++ Nat.repr dd.year))) ∧
      to_json (fun _ _ => "Mo") "C" (reprDict i1) = to_json xxDB "de_DE" (reprDict i1) :=
  C4_date_format xxDB (fun _ _ => "Mo") "de_DE" "C" i1 (by decide)
    (by decide) (by decide) (by decide) (by decide)

/-- C5: constructing an invoice and making any sequence of `add_item`
calls (numeric arguments unrestricted) then serializing yields an items
array of exactly one entry per call, in call order, each entry carrying
the name, quantity, unit cost and description of its call. -/
theorem C5_items_roundtrip (db : LocaleDB) (loc0 : String)
    (mld ct : PyDate) (p : InitParams) (calls : List AddCall) :
    ∃ w, to_json db loc0 (addCallsState mld ct p calls) = .ok w ∧
      dictGet w "items" = some (.pyitems (calls.map (fun c =>
        ItemSlot.dict ⟨c.name, c.quantity, c.unit_cost, c.description⟩))) ∧
      (calls.map (fun c =>
        ItemSlot.dict ⟨c.name, c.quantity, c.unit_cost, c.description⟩)).length
        = calls.length := by
  have hstate : addCallsState mld ct p calls =
      reprDict { initInv mld ct p with
        items := calls.map (fun c =>
          (⟨c.name, c.quantity, c.unit_cost, c.description⟩ : Item)) } := by
    rw [addCallsState, initDict, foldl_addItems]
    simp [initInv]
  have hok : TemplateOK ({ initInv mld ct p with
      items := calls.map (fun c =>
        (⟨c.name, c.quantity, c.unit_cost, c.description⟩ : Item)) } : Invoice).template := by
    constructor
    · intro kv hm
      simp [initInv] at hm
    · simp [initInv]
  refine ⟨_, by rw [hstate]; exact to_json_wire db loc0 _ hok, ?_, by simp⟩
  rw [wire_items]
  simp

/-- Counterexample to C6 at the concrete invoice `i0`: serialization
succeeds but the object's own dict afterwards is the wire dict, in which
the `"sender"` entry the object held before the call is gone, so the
source Invoice is not left unmodified. -/
theorem C6_counterexample :
    to_json xxDB "C" (reprDict i0) = .ok (wireDict i0) ∧
    dictGet (reprDict i0) "sender" = some (.pystr "Alice") ∧
    dictGet (wireDict i0) "sender" = none ∧
    wireDict i0 ≠ reprDict i0 := by
  refine ⟨by rfl, by rfl, by rfl, by decide⟩

/-- C6 amended: `_to_json` builds the wire representation by rewriting the
invoice's own dict in place; after a successful call the object's state is
exactly the returned wire object, which lacks the `"sender"` entry the
object held before, so the source invoice is modified rather than left
reusable. -/
theorem C6_serialization_mutates (db : LocaleDB) (loc0 : String) (i : Invoice)
    (hok : TemplateOK i.template) :
    to_json db loc0 (reprDict i) = .ok (wireDict i) ∧
    dictGet (reprDict i) "sender" = some (.pystr i.sender) ∧
    dictGet (wireDict i) "sender" = none ∧
    wireDict i ≠ reprDict i := by
  refine ⟨to_json_wire db loc0 i hok, rfl, wire_sender_none i hok, ?_⟩
  intro h
  have h1 : dictGet (wireDict i) "sender" = dictGet (reprDict i) "sender" := by rw [h]
  rw [wire_sender_none i hok] at h1
  have h2 : (none : Option PyVal) = some (.pystr i.sender) := h1
  exact Option.noConfusion h2

/-- Witness for C6 (amended) at the concrete invoice `i1`. -/
theorem C6_witness :
    to_json xxDB "C" (reprDict i1) = .ok (wireDict i1) ∧
    dictGet (reprDict i1) "sender" = some (.pystr i1.sender) ∧
    dictGet (wireDict i1) "sender" = none ∧
    wireDict i1 ≠ reprDict i1 :=
  C6_serialization_mutates xxDB "C" i1 (by decide)

/-- Counterexample to C9 at the concrete invoice `i0`: the second
`_to_json` call does raise, but it raises `AttributeError` — the first
call replaced `self.date` with a string, and a string has no `strftime` —
before execution ever reaches `pop("sender")`; it does not raise
`KeyError`. -/
theorem C9_counterexample :
    to_json xxDB "C" (reprDict i0) = .ok (wireDict i0) ∧
    to_json xxDB "C" (wireDict i0) = .error (.attributeError "strftime") ∧
    to_json xxDB "C" (wireDict i0) ≠ .error (.keyError "sender") ∧
    to_json xxDB "C" (wireDict i0) ≠ .error (.keyError "template") := by
  refine ⟨by rfl, by rfl, by decide, by decide⟩

/-- C9 amended: serialization is indeed not repeatable, but the second
call on the mutated state fails with `AttributeError` from calling
`strftime` on the already-stringified `date`, which happens before the
`pop("sender")` line could raise a `KeyError`. -/
theorem C9_second_serialization_fails (db db2 : LocaleDB) (loc0 loc02 : String)
    (i : Invoice) (hok : TemplateOK i.template) :
    to_json db loc0 (reprDict i) = .ok (wireDict i) ∧
    to_json db2 loc02 (wireDict i) = .error (.attributeError "strftime") := by
  refine ⟨to_json_wire db loc0 i hok, ?_⟩
  have hsender := wire_sender_none i hok
  have hdate : dictGet (dictSet (wireDict i) "from" PyVal.pynone) "date" =
      some (.pystr (fmtEn i.date)) := by
    rw [dictGet_dictSet_ne _ (by decide)]
    exact wire_date i
  simp [to_json, hsender, hdate]

/-- Witness for C9 (amended) at the concrete invoice `i1`. -/
theorem C9_witness :
    to_json xxDB "C" (reprDict i1) = .ok (wireDict i1) ∧
    to_json (fun _ _ => "Mo") "de_DE" (wireDict i1) =
      .error (.attributeError "strftime") :=
  C9_second_serialization_fails xxDB (fun _ _ => "Mo") "C" "de_DE" i1 (by decide)

/-- C3: on a 200 response `download` writes exactly the response body
bytes to the given path (overwriting whatever was there); on any other
status it raises an exception whose message contains the status code and
the parsed error body, and the file system is untouched. -/
theorem C3_download_contract (resp : HttpResponse) (fp : String)
    (fs : FileSystem) :
    (resp.status = 200 →
      download resp fp fs = (.ok, fsWrite fs fp resp.content) ∧
      fsWrite fs fp resp.content fp = some resp.content) ∧
    (resp.status ≠ 200 →
      ∃ msg, download resp fp fs = (.raised msg, fs) ∧
        StrContains msg (Nat.repr resp.status) ∧
        StrContains msg resp.parsedBody) := by
  constructor
  · intro h
    constructor
    · simp [download, h]
    · simp [fsWrite]
  · intro h
    refine ⟨"Invoice download request returned the following message:" ++
      resp.parsedBody ++ " Response code = " ++ Nat.repr resp.status ++ " ",
      by simp [download, h], ?_, ?_⟩
    · refine ⟨("Invoice download request returned the following message:" ++
        resp.parsedBody ++ " Response code = ").data, (" " : String).data, ?_⟩
      simp [String.data_append, List.append_assoc]
    · refine ⟨("Invoice download request returned the following message:" : String).data,
        (" Response code = " ++ Nat.repr resp.status ++ " ").data, ?_⟩
      simp [String.data_append, List.append_assoc]

/-- Witness for C3: a 200 response writing `%PDF` bytes, and the spec's
404 example whose raised message contains `404` and `bad request`. -/
theorem C3_witness :
    (download resp200 "invoices/a.pdf" fs0 =
      (.ok, fsWrite fs0 "invoices/a.pdf" resp200.content) ∧
      fsWrite fs0 "invoices/a.pdf" resp200.content "invoices/a.pdf" =
        some resp200.content) ∧
    (∃ msg, download resp404 "invoices/a.pdf" fs0 = (.raised msg, fs0) ∧
      StrContains msg (Nat.repr resp404.status) ∧
      StrContains msg resp404.parsedBody) :=
  ⟨(C3_download_contract resp200 "invoices/a.pdf" fs0).1 rfl,
   (C3_download_contract resp404 "invoices/a.pdf" fs0).2 (by decide)⟩

/-- Counterexample to C7: a transaction with amount exactly zero is not
strictly positive, yet the batch loop does not skip it — it produces a
submission for it. -/
theorem C7_counterexample :
    runBatch mld0 mld0 [rowZero] ≠ .ok [] ∧
    (runBatch mld0 mld0 [rowZero]).map List.length = .ok 1 := by
  refine ⟨by decide, by rfl⟩

/-- C7 amended: the batch loop submits one invoice per record with amount
`≥ 0` (records with negative amount are skipped entirely), in input
order, and each submitted invoice carries the fixed sender
`"EA2 Consulting"`, the record's description as recipient, a single
`"Consultative services"` item of quantity 1 and unit cost equal to the
record's amount, and the PDF path derived from the record's date. -/
theorem C7_batch_filter (mld ct : PyDate) (rows : List TxRecord) :
    runBatch mld ct rows =
      .ok ((rows.filter (fun r => 0 ≤ r.amount)).map (fun r =>
        ⟨batchInvoiceDict r, "invoices/" ++ isoDate r.date ++ ".pdf"⟩)) := by
  induction rows with
  | nil => rfl
  | cons row rest ih =>
    have hadd : add_item (initDict mld ct (batchParams row))
        (some "Consultative services") 1 row.amount none =
        .ok (batchInvoiceDict row) := by
      rw [initDict, add_item_repr]
      congr 1
    by_cases ha : row.amount < 0
    · have hnot : ¬ (0 ≤ row.amount) := not_le.mpr ha
      simp [runBatch, ha, List.filter_cons, hnot, ih]
    · have hle : 0 ≤ row.amount := not_lt.mp ha
      simp only [runBatch, if_neg ha, hadd, ih, List.filter_cons]
      simp [hle]
      rfl

/-- C10: the default issue date is the single value captured when the
class body ran at module load; two invoices constructed without a `date`
argument at different wall-clock times both carry exactly that value. -/
theorem C10_default_date_shared (mld t1 t2 : PyDate) (p q : InitParams)
    (hp : p.date = none) (hq : q.date = none) :
    dictGet (initDict mld t1 p) "date" = some (.pydate mld) ∧
    dictGet (initDict mld t2 q) "date" = dictGet (initDict mld t1 p) "date" := by
  have h1 : dictGet (initDict mld t1 p) "date" =
      some (.pydate (p.date.getD mld)) := rfl
  have h2 : dictGet (initDict mld t2 q) "date" =
      some (.pydate (q.date.getD mld)) := rfl
  constructor
  · rw [h1, hp]
    rfl
  · rw [h1, h2, hp, hq]

/-- Witness for C10: constructions at two different wall-clock instants,
years apart, both dated with the module-load instant `mld0`. -/
theorem C10_witness :
    dictGet (initDict mld0 ⟨2024, 1, 5, 10⟩ p0) "date" = some (.pydate mld0) ∧
    dictGet (initDict mld0 ⟨2030, 7, 9, 55555⟩ q0) "date" =
      dictGet (initDict mld0 ⟨2024, 1, 5, 10⟩ p0) "date" :=
  C10_default_date_shared mld0 ⟨2024, 1, 5, 10⟩ ⟨2030, 7, 9, 55555⟩ p0 q0 rfl rfl
